import Mathlib

/-!
Shallow embedding of `src/mail.py`, a command-line client for the mail.tm
disposable-email REST API.

Modelling conventions:

* JSON values are the inductive `Json`; an HTTP round trip is an `HttpResult`:
  either `connError` (the `requests` call raised before a `response` object was
  bound — connection refused, DNS failure, timeout) or `response status body`,
  where `body = none` means the response text does not parse as JSON
  (`response.json()` raises `requests.exceptions.JSONDecodeError`, a
  `RequestException`, hence caught by the `except` clauses) and
  `body = some j` means it parses to `j`.
* `response.raise_for_status()` raises exactly when `400 ≤ status`.
* Each operation returns `Except PyError (List String × α)`: `.ok (log, v)`
  is a normal return of `v` after printing the messages in `log`
  (interpolated details such as the exception text or the message id are
  dropped from the message constants), while `.error e` is a Python
  exception escaping the function uncaught.  Messages printed before an
  escaping exception are not tracked.
* Python semantics of `d[k]`, `d[k] = v`, `k in x`, truthiness and `for`
  iteration are modelled by `Json.index`, `Json.setKey`, `Json.hasMember`,
  `Json.truthy` and `pyIter`.
-/

inductive Json where
  | null
  | bool (b : Bool)
  | num (n : Int)
  | str (s : String)
  | arr (elems : List Json)
  | obj (fields : List (String × Json))

/-- Python exceptions that the claims distinguish. -/
inductive PyError where
  | unboundLocal (name : String)
  | keyError (key : String)
  | typeError
  | attributeError (attr : String)
deriving DecidableEq

/-- Transport-level outcome of one `requests.get`/`requests.post` call. -/
inductive HttpResult where
  | connError
  | response (status : Nat) (body : Option Json)

/-- Python truthiness of a JSON value (`if token_response`). -/
def Json.truthy : Json → Bool
  | .null => false
  | .bool b => b
  | .num n => n != 0
  | .str s => s != ""
  | .arr elems => !elems.isEmpty
  | .obj fields => !fields.isEmpty

/-- First value bound to key `k` (Python dict semantics: keys are unique). -/
def lookupKey (k : String) : List (String × Json) → Option Json
  | [] => none
  | (k', v) :: rest => if k' = k then some v else lookupKey k rest

/-- Python `x[k]` for a string key: dict lookup (raising `KeyError` when the
key is absent), `TypeError` on any non-dict value. -/
def Json.index (j : Json) (k : String) : Except PyError Json :=
  match j with
  | .obj fields =>
    match lookupKey k fields with
    | some v => .ok v
    | none => .error (.keyError k)
  | _ => .error .typeError

/-- Update-or-append for `d[k] = v` on a dict: an existing binding is replaced
in place, a new key goes to the end (CPython insertion order). -/
def setPair (k : String) (v : Json) : List (String × Json) → List (String × Json)
  | [] => [(k, v)]
  | (k', v') :: rest => if k' = k then (k, v) :: rest else (k', v') :: setPair k v rest

/-- Python `x[k] = v` for a string key: dict assignment, `TypeError` otherwise. -/
def Json.setKey (j : Json) (k : String) (v : Json) : Except PyError Json :=
  match j with
  | .obj fields => .ok (.obj (setPair k v fields))
  | _ => .error .typeError

/-- Does `needle` occur as a contiguous run inside `hay`? (Python `sub in s`.) -/
def substrIn (needle : List Char) : List Char → Bool
  | [] => needle.isEmpty
  | c :: rest => needle.isPrefixOf (c :: rest) || substrIn needle rest

/-- Python `==` between a JSON value and the string `k` (used by `in` on lists). -/
def Json.eqStr (j : Json) (k : String) : Bool :=
  match j with
  | .str s => s == k
  | _ => false

/-- Python `k in x` for a string `k`: key test on dicts, membership on lists,
substring test on strings, `TypeError` on the remaining scalars. -/
def Json.hasMember (j : Json) (k : String) : Except PyError Bool :=
  match j with
  | .obj fields => .ok (fields.any (fun p => p.1 == k))
  | .arr elems => .ok (elems.any (fun e => e.eqStr k))
  | .str s => .ok (substrIn k.toList s.toList)
  | _ => .error .typeError

/-- Python `for x in j`: lists yield elements, dicts their keys, strings their
characters; scalars raise `TypeError`. -/
def pyIter (j : Json) : Except PyError (List Json) :=
  match j with
  | .arr elems => .ok elems
  | .obj fields => .ok (fields.map (fun p => .str p.1))
  | .str s => .ok (s.toList.map (fun c => .str (String.mk [c])))
  | _ => .error .typeError

/-- The comprehension body of `get_domains`:
`[domain['domain'] for domain in members]`, left to right, first exception
escapes. -/
def extractDomains : List Json → Except PyError (List Json)
  | [] => .ok []
  | d :: rest =>
    match d.index "domain" with
    | .error e => .error e
    | .ok v =>
      match extractDomains rest with
      | .error e => .error e
      | .ok vs => .ok (v :: vs)

/-- `MailTmAPI.get_domains` (src/mail.py lines 11-21).  The `except` clause
catches only `requests.exceptions.RequestException`; a `KeyError`/`TypeError`
from `data['hydra:member']` or the comprehension escapes uncaught. -/
def MailTmAPI.get_domains (r : HttpResult) : Except PyError (List String × Option (List Json)) :=
  match r with
  | .connError => .ok (["Error fetching domains"], none)
  | .response status body =>
    if 400 ≤ status then .ok (["Error fetching domains"], none)
    else
      match body with
      | none => .ok (["Error fetching domains"], none)
      | some data =>
        match data.index "hydra:member" with
        | .error e => .error e
        | .ok members =>
          match pyIter members with
          | .error e => .error e
          | .ok elems =>
            match extractDomains elems with
            | .error e => .error e
            | .ok domains => .ok ([], some domains)

/-- `MailTmAPI.get_token` (src/mail.py lines 54-70).  Every statement in the
`try` block can only raise `RequestException`, and the handler does not touch
`response`, so the function always returns: `token_data` on success, Python
`None` (modelled `Option.none`) after printing an error otherwise. -/
def MailTmAPI.get_token (r : HttpResult) (address password : String) : List String × Option Json :=
  match r with
  | .connError => (["Error getting token"], none)
  | .response status body =>
    if 400 ≤ status then (["Error getting token"], none)
    else
      match body with
      | none => (["Error getting token"], none)
      | some token_data => ([], some token_data)

/-- The two HTTP round trips `create_account` may perform: the POST to
`/accounts` and the POST to `/token` made by the nested `get_token` call. -/
structure CreateEnv where
  accountsResp : HttpResult
  tokenResp : HttpResult

/-- `MailTmAPI.create_account` (src/mail.py lines 23-52).  On the success path
the token obtained by `get_token` is attached to the account data and the
record is returned.  In the `except` clause the code evaluates
`response.status_code`; when the POST itself raised (no response object was
ever bound) this evaluation raises `UnboundLocalError`, which escapes.  The
local `address = f"{username}@{domain}"` of the source is inlined at its two
use sites. -/
def MailTmAPI.create_account (env : CreateEnv) (username password domain : String) :
    Except PyError (List String × Option Json) :=
  match env.accountsResp with
  | .connError => .error (.unboundLocal "response")
  | .response status body =>
    if 400 ≤ status then
      if status = 422 then
        .ok (["Error creating account",
              "Account creation failed. Possible issues: Username too short, invalid domain, or username already taken."],
             none)
      else .ok (["Error creating account"], none)
    else
      match body with
      | none => .ok (["Error creating account"], none)
      | some account_data =>
        match MailTmAPI.get_token env.tokenResp (username ++ "@" ++ domain) password with
        | (tokenLog, none) =>
          .ok (tokenLog ++ ["Error getting token after account creation."], none)
        | (tokenLog, some token_response) =>
          if token_response.truthy then
            match token_response.hasMember "token" with
            | .error e => .error e
            | .ok false =>
              .ok (tokenLog ++ ["Error getting token after account creation."], none)
            | .ok true =>
              match token_response.index "token" with
              | .error e => .error e
              | .ok tok =>
                match account_data.setKey "token" tok with
                | .error e => .error e
                | .ok a1 =>
                  match a1.setKey "address" (.str (username ++ "@" ++ domain)) with
                  | .error e => .error e
                  | .ok a2 => .ok (tokenLog, some a2)
          else
            .ok (tokenLog ++ ["Error getting token after account creation."], none)

/-- `MailTmAPI.get_messages` (src/mail.py lines 72-87).  On HTTP 401 the
handler prints a distinct authentication message and returns `None`; when the
GET itself raised, the handler hits the unbound `response` and the
`UnboundLocalError` escapes; a missing `hydra:member` key raises an uncaught
`KeyError` since it is not a `RequestException`. -/
def MailTmAPI.get_messages (r : HttpResult) (token : String) :
    Except PyError (List String × Option Json) :=
  match r with
  | .connError => .error (.unboundLocal "response")
  | .response status body =>
    if 400 ≤ status then
      if status = 401 then
        .ok (["Error fetching messages", "Authentication failed. Invalid token."], none)
      else .ok (["Error fetching messages"], none)
    else
      match body with
      | none => .ok (["Error fetching messages"], none)
      | some messages_data =>
        match messages_data.index "hydra:member" with
        | .error e => .error e
        | .ok messages => .ok ([], some messages)

/-- `MailTmAPI.get_message_content` (src/mail.py lines 89-105).  The handler
prints a distinct message for HTTP 401 and for HTTP 404 and returns `None`;
a connection-level failure hits the unbound `response` as in `get_messages`.
A parsed body is returned as is, with no shape validation. -/
def MailTmAPI.get_message_content (r : HttpResult) (token message_id : String) :
    Except PyError (List String × Option Json) :=
  match r with
  | .connError => .error (.unboundLocal "response")
  | .response status body =>
    if 400 ≤ status then
      let log0 := ["Error fetching message content"]
      let log1 := if status = 401 then log0 ++ ["Authentication failed. Invalid token."] else log0
      let log2 := if status = 404 then log1 ++ ["Message not found."] else log1
      .ok (log2, none)
    else
      match body with
      | none => .ok (["Error fetching message content"], none)
      | some message_content => .ok ([], some message_content)

/-- Python `string.ascii_lowercase`. -/
def ascii_lowercase : List Char := "abcdefghijklmnopqrstuvwxyz".toList

/-- Python `string.ascii_uppercase`. -/
def ascii_uppercase : List Char := "ABCDEFGHIJKLMNOPQRSTUVWXYZ".toList

/-- Python `string.ascii_letters`. -/
def ascii_letters : List Char := ascii_lowercase ++ ascii_uppercase

/-- Python `string.digits`. -/
def digits : List Char := "0123456789".toList

/-- Python `string.punctuation`: the 32 printable ASCII characters (codes 33
to 126) that are not alphanumeric. -/
def punctuation : List Char :=
  ((List.range 94).map (fun i => Char.ofNat (33 + i))).filter (fun c => !c.isAlphanum)

/-- `generate_strong_password` (src/mail.py lines 112-117).  `random.choice`
is modelled by an oracle `pick`: the i-th draw selects index
`pick i % characters.length`, so every draw is some element of `characters`
and any element is reachable. -/
def generate_strong_password (length : Int) (pick : Nat → Nat) : String :=
  let characters := ascii_letters ++ digits ++ punctuation
  let len : Nat := if length < 8 then 8 else length.toNat
  String.mk ((List.range len).map (fun i => characters.getD (pick i % characters.length) 'a'))

/-- State of the backing file `mailtm_accounts.json`: absent, present but not
parseable as JSON (this includes the empty file), or parseable to a JSON
value. -/
inductive FileState where
  | missing
  | file (parsed : Option Json)

/-- `load_accounts_from_json` (src/mail.py lines 130-145).  Total: every
branch returns, a missing file and an unparseable file both give `[]` (the
latter with a warning), and any parsed JSON value is returned unchanged. -/
def load_accounts_from_json (fs : FileState) : List String × Json :=
  match fs with
  | .missing => ([], .arr [])
  | .file none =>
    (["Warning: JSON file is empty or corrupted. Returning empty account list."], .arr [])
  | .file (some accounts) => ([], accounts)

/-- Fate of the `open(filename, 'w')` / `json.dump` pair in
`save_account_to_json`: either the dump completes, or it fails partway after
`open(..., 'w')` already truncated the file, leaving whatever partial text was
flushed (`none` models a leftover that does not parse as JSON, the typical
truncated prefix). -/
inductive WriteOutcome where
  | success
  | failDuringWrite (leftover : Option Json)

/-- `save_account_to_json` (src/mail.py lines 119-128).  Loads the current
list, appends in memory, then rewrites the file in place; only the
`open`/`dump` pair is inside the `try`, so `accounts.append` on a non-list
raises an uncaught `AttributeError`. -/
def save_account_to_json (account_data : Json) (fs : FileState) (w : WriteOutcome) :
    Except PyError (List String × FileState) :=
  match load_accounts_from_json fs with
  | (loadLog, .arr xs) =>
    match w with
    | .success =>
      .ok (loadLog ++ ["Account saved"], .file (some (.arr (xs ++ [account_data]))))
    | .failDuringWrite leftover =>
      .ok (loadLog ++ ["Error saving account to JSON"], .file leftover)
  | (_, _) => .error (.attributeError "append")

/-- The body of the choice-2 branch of `main` after index validation
(src/mail.py lines 211-213): `token = selected_account['token']` followed by a
print that reads `selected_account['address']`.  The `tokenEndpoint` argument
is the authentication endpoint that a re-authentication would use; the source
never consults it on this path, and the path performs no write to the accounts
file. -/
def main_selectAccount (tokenEndpoint : HttpResult) (selected_account : Json) :
    Except PyError (List String × Json) :=
  match selected_account.index "token" with
  | .error e => .error e
  | .ok token =>
    match selected_account.index "address" with
    | .error e => .error e
    | .ok _ => .ok (["Using account"], token)

/-- A well-formed `/domains` collection envelope carrying `names` in order
(spec section 6: collection with a `domain` field per entry). -/
def mkEnvelope (names : List String) : Json :=
  .obj [("hydra:member", .arr (names.map (fun n => .obj [("domain", .str n)])))]

/-- Server-side contract of the `/token` endpoint (spec section 6: success
body is an object whose `token` field is the bearer token, an opaque
credential string, hence non-empty). -/
def tokenContract (r : HttpResult) : Prop :=
  ∀ status j v, r = .response status (some j) → j.index "token" = .ok v →
    ∃ t, v = .str t ∧ t ≠ ""

/-! Helper lemmas about the embedded dictionary operations. -/

theorem lookupKey_setPair_self (k : String) (v : Json) (fields : List (String × Json)) :
    lookupKey k (setPair k v fields) = some v := by
  induction fields with
  | nil => simp [setPair, lookupKey]
  | cons p rest ih =>
    obtain ⟨k', v'⟩ := p
    by_cases h : k' = k
    · simp [setPair, h, lookupKey]
    · simp [setPair, h, lookupKey, ih]

theorem lookupKey_setPair_ne (k k₂ : String) (v : Json) (fields : List (String × Json))
    (h : k ≠ k₂) : lookupKey k₂ (setPair k v fields) = lookupKey k₂ fields := by
  induction fields with
  | nil => simp [setPair, lookupKey, h]
  | cons p rest ih =>
    obtain ⟨k', v'⟩ := p
    by_cases hk : k' = k
    · subst hk
      simp [setPair, lookupKey, h]
    · by_cases hk2 : k' = k₂
      · subst hk2
        simp [setPair, hk, lookupKey]
      · simp [setPair, hk, lookupKey, hk2, ih]

theorem get_token_eq_some (r : HttpResult) (a p : String) (lg : List String) (j : Json)
    (h : MailTmAPI.get_token r a p = (lg, some j)) :
    ∃ status, r = .response status (some j) ∧ ¬ 400 ≤ status := by
  cases r with
  | connError => simp [MailTmAPI.get_token] at h
  | response status body =>
    by_cases hs : 400 ≤ status
    · simp [MailTmAPI.get_token, hs] at h
    · cases body with
      | none => simp [MailTmAPI.get_token, hs] at h
      | some jd =>
        simp [MailTmAPI.get_token, hs] at h
        exact ⟨status, by rw [h.2], hs⟩

theorem extractDomains_map (names : List String) :
    extractDomains (names.map (fun n => Json.obj [("domain", Json.str n)]))
      = .ok (names.map Json.str) := by
  induction names with
  | nil => rfl
  | cons n ns ih => simp [extractDomains, Json.index, lookupKey, ih]

/-- Claim C1 (status: code_bug).  The spec claims every failure of the
underlying HTTP request in `create_account`, `get_messages` and
`get_message_content` is recovered inside the client and surfaced as `None`;
this theorem evaluates the embedded code at the failing input — a
connection-level failure, where no response object exists — and shows that in
all three operations an `UnboundLocalError` (from `response.status_code` in
the `except` block) escapes instead. -/
theorem remote_ops_raise_on_connection_failure :
    MailTmAPI.create_account ⟨.connError, .connError⟩ "user1" "pw" "mail.tm"
      = .error (.unboundLocal "response")
    ∧ MailTmAPI.get_messages .connError "sometoken" = .error (.unboundLocal "response")
    ∧ MailTmAPI.get_message_content .connError "sometoken" "m1"
      = .error (.unboundLocal "response") :=
  ⟨rfl, rfl, rfl⟩

/-- Claim C3 (status: confirmed).  `load_accounts_from_json` applied to a
nonexistent backing file returns the empty sequence with no warning, and
applied to a file whose contents do not parse as JSON (which covers both the
empty file and malformed contents) returns the empty sequence after printing
one warning.  The embedded function is total, so no exception reaches the
caller on any input. -/
theorem load_accounts_empty_on_missing_or_corrupt :
    load_accounts_from_json .missing = ([], .arr [])
    ∧ load_accounts_from_json (.file none)
      = (["Warning: JSON file is empty or corrupted. Returning empty account list."], .arr []) :=
  ⟨rfl, rfl⟩

/-- Claim C5 (status: code_bug).  The spec claims a failed write leaves all
previously persisted records intact for the next load.  In the code,
`open(filename, 'w')` truncates the file before `json.dump` starts, so a
write that fails partway leaves an unparseable leftover; the next
`load_accounts_from_json` then returns the empty list — the previously
persisted record is lost, exactly what the claim rules out. -/
theorem failed_write_loses_previous_records :
    save_account_to_json (.obj [("address", .str "new@mail.tm")])
        (.file (some (.arr [.obj [("address", .str "old@mail.tm")]])))
        (.failDuringWrite none)
      = .ok (["Error saving account to JSON"], .file none)
    ∧ (load_accounts_from_json (.file none)).2 = .arr [] :=
  ⟨rfl, rfl⟩

/-- Claim C8, counterexample (status: corrected).  Selecting a stored record
whose `token` field is absent does not lead to a `get_token`
(`obtainToken`) call: even with an authentication endpoint available that
would return a fresh token, `main` evaluates `selected_account['token']` and
the resulting `KeyError` escapes uncaught, so no failure is reported either. -/
theorem select_missing_token_raises_keyerror :
    main_selectAccount (.response 200 (some (.obj [("token", .str "fresh")])))
        (.obj [("address", .str "user@mail.tm"), ("password", .str "pw"), ("id", .str "A1")])
      = .error (.keyError "token") :=
  rfl

/-- Claim C9, counterexample (status: corrected).  The claim says `get_domains`
never lets an exception escape; but on a 2xx response whose body is valid JSON
of an unexpected shape (here an object without the `hydra:member` key) the
`KeyError` from `data['hydra:member']` is not a `RequestException` and
escapes uncaught. -/
theorem get_domains_bad_shape_raises :
    MailTmAPI.get_domains (.response 200 (some (.obj [("members", .arr [])])))
      = .error (.keyError "hydra:member") :=
  rfl

/-- Claim C4 (status: confirmed).  From any store state whose load yields the
previously persisted records `prior`, a successful `save_account_to_json`
followed by `load_accounts_from_json` returns exactly `prior ++ [record]`:
the last element is the appended record and the earlier elements are the
prior records, unchanged and in order. -/
theorem save_then_load_appends_record (fs : FileState) (prior : List Json) (record : Json)
    (h : (load_accounts_from_json fs).2 = .arr prior) :
    ∃ log fs2,
      save_account_to_json record fs .success = .ok (log, fs2)
      ∧ (load_accounts_from_json fs2).2 = .arr (prior ++ [record])
      ∧ (prior ++ [record]).getLast? = some record
      ∧ (prior ++ [record]).dropLast = prior := by
  have hpair : load_accounts_from_json fs = ((load_accounts_from_json fs).1, Json.arr prior) := by
    rw [← h]
  refine ⟨(load_accounts_from_json fs).1 ++ ["Account saved"],
    .file (some (.arr (prior ++ [record]))), ?_, rfl, ?_, ?_⟩
  · unfold save_account_to_json
    rw [hpair]
  · simp
  · simp

/-- Claim C4 witness: concrete instance starting from the missing file. -/
theorem save_then_load_appends_record_witness :
    ∃ log fs2,
      save_account_to_json (.obj [("address", .str "a@b.tm")]) .missing .success = .ok (log, fs2)
      ∧ (load_accounts_from_json fs2).2 = .arr ([] ++ [.obj [("address", .str "a@b.tm")]])
      ∧ ([] ++ [Json.obj [("address", .str "a@b.tm")]]).getLast?
          = some (.obj [("address", .str "a@b.tm")])
      ∧ ([] ++ [Json.obj [("address", .str "a@b.tm")]]).dropLast = [] :=
  save_then_load_appends_record .missing [] (.obj [("address", .str "a@b.tm")]) rfl

/-- Claim C6 (status: confirmed).  A call of `get_messages` whose token the
server rejected (HTTP 401) yields the reported outcome `None` together with
the distinct printed diagnostic `Authentication failed. Invalid token.`; a
dropped connection yields an escaping `UnboundLocalError` instead, and any
other HTTP-error status yields `None` with a log that does not contain the
authentication diagnostic.  The three observable outcomes are pairwise
distinct, which is the sense in which the caller can branch on an auth
failure; the source has no failure-kind enumeration, the classification lives
in the printed message. -/
theorem get_messages_auth_failure_distinct (token : String) (body other_body : Option Json)
    (status : Nat) (hs : 400 ≤ status) (hne : status ≠ 401) :
    MailTmAPI.get_messages (.response 401 body) token
      = .ok (["Error fetching messages", "Authentication failed. Invalid token."], none)
    ∧ MailTmAPI.get_messages .connError token = .error (.unboundLocal "response")
    ∧ ∃ log, MailTmAPI.get_messages (.response status other_body) token = .ok (log, none)
        ∧ "Authentication failed. Invalid token." ∉ log := by
  refine ⟨rfl, rfl, ["Error fetching messages"], ?_, by simp⟩
  simp only [MailTmAPI.get_messages]
  rw [if_pos hs, if_neg hne]

/-- Claim C6 witness: server invalidated the token (401) versus a generic
HTTP 500 failure and a dropped connection. -/
theorem get_messages_auth_failure_distinct_witness :
    MailTmAPI.get_messages (.response 401 none) "tok0"
      = .ok (["Error fetching messages", "Authentication failed. Invalid token."], none)
    ∧ MailTmAPI.get_messages .connError "tok0" = .error (.unboundLocal "response")
    ∧ ∃ log, MailTmAPI.get_messages (.response 500 none) "tok0" = .ok (log, none)
        ∧ "Authentication failed. Invalid token." ∉ log :=
  get_messages_auth_failure_distinct "tok0" none none 500 (by decide) (by decide)

/-- Claim C8 as amended (status: corrected).  When an existing stored record
is selected, `main` reads `record['token']` directly: the authentication
endpoint is never consulted (the outcome is the same whatever that endpoint
would answer, i.e. `obtainToken` is not called), a record whose `token` field
is absent makes the read raise an uncaught `KeyError` rather than trigger
re-authentication or a reported failure, and a record with a token becomes
the active token as is.  No path of this flow writes to the accounts file
(the embedded flow neither takes nor returns a `FileState`), so the record is
never re-persisted with a new token. -/
theorem select_existing_token_read (ep ep2 : HttpResult) (rec : Json) :
    main_selectAccount ep rec = main_selectAccount ep2 rec
    ∧ (∀ e, rec.index "token" = .error e → main_selectAccount ep rec = .error e)
    ∧ (∀ tok addr, rec.index "token" = .ok tok → rec.index "address" = .ok addr →
        main_selectAccount ep rec = .ok (["Using account"], tok)) := by
  refine ⟨rfl, ?_, ?_⟩
  · intro e he
    unfold main_selectAccount
    rw [he]
  · intro tok addr h1 h2
    unfold main_selectAccount
    rw [h1, h2]

/-- Claim C8 witness: a stored record that has a token is used directly. -/
theorem select_existing_token_read_witness :
    main_selectAccount .connError (.obj [("address", .str "a@b.tm"), ("token", .str "T2")])
      = .ok (["Using account"], .str "T2") :=
  (select_existing_token_read .connError .connError
    (.obj [("address", .str "a@b.tm"), ("token", .str "T2")])).2.2
    (.str "T2") (.str "a@b.tm") rfl rfl

/-- Claim C7 (status: confirmed).  A `get_message_content` call for a
nonexistent message id (HTTP 404) yields the reported outcome `None` with the
distinct printed diagnostic `Message not found.`, which no other HTTP-error
outcome carries; a valid id (a 2xx response carrying the message detail,
which per the remote contract includes a text body and a non-empty `to`
sequence) yields exactly that detail, so the returned value includes the text
body and the non-empty recipient sequence. -/
theorem get_message_content_not_found_and_detail (token mid : String) (body : Option Json)
    (detail tval : Json) (tos : List Json) (status : Nat)
    (htext : detail.index "text" = .ok tval)
    (hto : detail.index "to" = .ok (.arr tos)) (hne : tos ≠ [])
    (hs : 400 ≤ status) (h404 : status ≠ 404) :
    MailTmAPI.get_message_content (.response 404 body) token mid
      = .ok (["Error fetching message content", "Message not found."], none)
    ∧ (∃ content, MailTmAPI.get_message_content (.response 200 (some detail)) token mid
        = .ok ([], some content)
        ∧ content.index "text" = .ok tval
        ∧ content.index "to" = .ok (.arr tos) ∧ tos ≠ [])
    ∧ (∃ log, MailTmAPI.get_message_content (.response status body) token mid = .ok (log, none)
        ∧ "Message not found." ∉ log) := by
  refine ⟨rfl, ⟨detail, rfl, htext, hto, hne⟩, ?_⟩
  by_cases h401 : status = 401
  · refine ⟨["Error fetching message content", "Authentication failed. Invalid token."],
      ?_, by decide⟩
    simp only [MailTmAPI.get_message_content]
    rw [if_pos hs]
    simp [h401, h404]
  · refine ⟨["Error fetching message content"], ?_, by decide⟩
    simp only [MailTmAPI.get_message_content]
    rw [if_pos hs]
    simp [h401, h404]

/-- Claim C7 witness: concrete 404, valid-id and generic-500 outcomes. -/
theorem get_message_content_not_found_and_detail_witness :
    MailTmAPI.get_message_content (.response 404 none) "tokW" "m9"
      = .ok (["Error fetching message content", "Message not found."], none)
    ∧ (∃ content, MailTmAPI.get_message_content
          (.response 200 (some (.obj [("text", .str "hello"),
            ("to", .arr [.obj [("address", .str "r@x.tm")]])]))) "tokW" "m9"
        = .ok ([], some content)
        ∧ content.index "text" = .ok (.str "hello")
        ∧ content.index "to" = .ok (.arr [.obj [("address", .str "r@x.tm")]])
        ∧ [Json.obj [("address", .str "r@x.tm")]] ≠ ([] : List Json))
    ∧ (∃ log, MailTmAPI.get_message_content (.response 500 none) "tokW" "m9" = .ok (log, none)
        ∧ "Message not found." ∉ log) :=
  get_message_content_not_found_and_detail "tokW" "m9" none
    (.obj [("text", .str "hello"), ("to", .arr [.obj [("address", .str "r@x.tm")]])])
    (.str "hello") [.obj [("address", .str "r@x.tm")]] 500 rfl rfl
    (by simp) (by decide) (by decide)

/-- Claim C9 as amended (status: corrected).  `get_domains` succeeds exactly
on a well-formed collection envelope, returning the flat sequence of domain
names in server order; a connection failure, a non-2xx status, or an
unparseable body is recovered inside the function and surfaced as the single
reported outcome `None` after a printed error (the source does not classify
these into distinct failure kinds), while a parseable body of unexpected
shape raises an uncaught exception (see the counterexample theorem). -/
theorem get_domains_outcomes (names : List String) (status : Nat) (body : Option Json)
    (hs : 400 ≤ status) :
    MailTmAPI.get_domains (.response 200 (some (mkEnvelope names)))
      = .ok ([], some (names.map Json.str))
    ∧ MailTmAPI.get_domains .connError = .ok (["Error fetching domains"], none)
    ∧ MailTmAPI.get_domains (.response status body) = .ok (["Error fetching domains"], none)
    ∧ MailTmAPI.get_domains (.response 200 none) = .ok (["Error fetching domains"], none) := by
  refine ⟨?_, rfl, ?_, rfl⟩
  · simp only [MailTmAPI.get_domains, mkEnvelope]
    simp [Json.index, lookupKey, pyIter, extractDomains_map names]
  · simp only [MailTmAPI.get_domains]
    rw [if_pos hs]

/-- Claim C9 witness: a two-domain envelope and a 503 failure. -/
theorem get_domains_outcomes_witness :
    MailTmAPI.get_domains (.response 200 (some (mkEnvelope ["mail.tm", "example.com"])))
      = .ok ([], some (["mail.tm", "example.com"].map Json.str))
    ∧ MailTmAPI.get_domains .connError = .ok (["Error fetching domains"], none)
    ∧ MailTmAPI.get_domains (.response 503 none) = .ok (["Error fetching domains"], none)
    ∧ MailTmAPI.get_domains (.response 200 none) = .ok (["Error fetching domains"], none) :=
  get_domains_outcomes ["mail.tm", "example.com"] 503 none (by decide)

/-- Claim C10 (status: confirmed).  For every requested length and every
behaviour of the random oracle, `generate_strong_password` returns a string
whose length is the requested length when that is at least 8 and exactly 8
otherwise, and every character of the result is drawn from ASCII letters,
digits and punctuation. -/
theorem generate_strong_password_length_and_charset (length : Int) (pick : Nat → Nat) :
    (8 ≤ length → ((generate_strong_password length pick).length : Int) = length)
    ∧ (length < 8 → (generate_strong_password length pick).length = 8)
    ∧ ∀ c ∈ (generate_strong_password length pick).toList,
        c ∈ ascii_letters ++ digits ++ punctuation := by
  have hchars : 0 < (ascii_letters ++ digits ++ punctuation).length := by decide
  have hlen : (generate_strong_password length pick).length
      = (if length < 8 then 8 else length.toNat) := by
    simp [generate_strong_password]
  refine ⟨?_, ?_, ?_⟩
  · intro h8
    rw [hlen, if_neg (not_lt.mpr h8)]
    exact Int.toNat_of_nonneg (by omega)
  · intro hlt
    rw [hlen, if_pos hlt]
  · intro c hc
    have hc' : c ∈ (List.range (if length < 8 then 8 else length.toNat)).map
        (fun i => (ascii_letters ++ digits ++ punctuation).getD
          (pick i % (ascii_letters ++ digits ++ punctuation).length) 'a') := hc
    obtain ⟨i, hir, rfl⟩ := List.mem_map.mp hc'
    rw [List.getD_eq_getElem _ _ (Nat.mod_lt _ hchars)]
    exact List.getElem_mem _

/-- Claim C10 witness: a request below the minimum is padded to 8, and the
oracle that always picks index 0 draws the letter a, which is in the
alphabet. -/
theorem generate_strong_password_witness :
    (generate_strong_password 5 (fun _ => 0)).length = 8
    ∧ 'a' ∈ ascii_letters ++ digits ++ punctuation :=
  ⟨(generate_strong_password_length_and_charset 5 (fun _ => 0)).2.1 (by decide),
   (generate_strong_password_length_and_charset 5 (fun _ => 0)).2.2 'a' (by decide)⟩

theorem setKey_ok_inv (j v r : Json) (k : String) (h : j.setKey k v = .ok r) :
    ∃ fields, j = .obj fields ∧ r = .obj (setPair k v fields) := by
  cases j <;> simp [Json.setKey] at h
  case obj fields => exact ⟨fields, rfl, h.symm⟩

/-- Claim C2 (status: confirmed).  Whenever `create_account` returns a record
(rather than `None` or an escaping exception), that record carries a
populated `address` field equal to `username@domain` and a populated `token`
field holding exactly the token the authentication endpoint supplied; under
the remote contract that a bearer token is a non-empty string, the token
field is a non-empty string.  A caller following this path therefore never
receives, and so never persists, a tokenless record. -/
theorem create_account_address_and_token (env : CreateEnv) (u p d : String)
    (log : List String) (rec : Json)
    (hok : MailTmAPI.create_account env u p d = .ok (log, some rec)) :
    rec.index "address" = .ok (.str (u ++ "@" ++ d))
    ∧ ∃ v, rec.index "token" = .ok v
        ∧ (tokenContract env.tokenResp → ∃ t, v = .str t ∧ t ≠ "") := by
  obtain ⟨aresp, tresp⟩ := env
  rcases aresp with _ | ⟨status, body⟩
  · simp [MailTmAPI.create_account] at hok
  by_cases hs : 400 ≤ status
  · by_cases h422 : status = 422 <;> simp [MailTmAPI.create_account, hs, h422] at hok
  rcases body with _ | account_data
  · simp [MailTmAPI.create_account, hs] at hok
  rcases hgt : MailTmAPI.get_token tresp (u ++ "@" ++ d) p with ⟨tokenLog, tr⟩
  rcases tr with _ | token_response
  · simp [MailTmAPI.create_account, hs, hgt] at hok
  cases htr : token_response.truthy with
  | false => simp [MailTmAPI.create_account, hs, hgt, htr] at hok
  | true =>
  rcases hm : token_response.hasMember "token" with e | b
  · simp [MailTmAPI.create_account, hs, hgt, htr, hm] at hok
  rcases b with _ | _
  · simp [MailTmAPI.create_account, hs, hgt, htr, hm] at hok
  rcases hidx : token_response.index "token" with e | tok
  · simp [MailTmAPI.create_account, hs, hgt, htr, hm, hidx] at hok
  rcases hset1 : account_data.setKey "token" tok with e | a1
  · simp [MailTmAPI.create_account, hs, hgt, htr, hm, hidx, hset1] at hok
  rcases hset2 : a1.setKey "address" (Json.str (u ++ "@" ++ d)) with e | a2
  · simp [MailTmAPI.create_account, hs, hgt, htr, hm, hidx, hset1, hset2] at hok
  simp [MailTmAPI.create_account, hs, hgt, htr, hm, hidx, hset1, hset2] at hok
  obtain ⟨hlog, hrec⟩ := hok
  obtain ⟨f0, hj0, ha1⟩ := setKey_ok_inv _ _ _ _ hset1
  subst hj0
  subst ha1
  obtain ⟨f1, hj1, ha2⟩ := setKey_ok_inv _ _ _ _ hset2
  injection hj1 with hj1'
  subst hj1'
  subst ha2
  subst hrec
  constructor
  · simp [Json.index, lookupKey_setPair_self]
  · refine ⟨tok, ?_, ?_⟩
    · have h1 : lookupKey "token"
          (setPair "address" (Json.str (u ++ "@" ++ d)) (setPair "token" tok f0)) = some tok := by
        rw [lookupKey_setPair_ne _ _ _ _ (by decide), lookupKey_setPair_self]
      simp [Json.index, h1]
    · intro hc
      obtain ⟨st, henvtok, _⟩ :=
        get_token_eq_some tresp (u ++ "@" ++ d) p tokenLog token_response hgt
      exact hc st token_response tok henvtok hidx

/-- Claim C2 witness: a 201 account response and a contract-conforming token
response produce a record with the composed address and the non-empty token. -/
theorem create_account_address_and_token_witness :
    (Json.obj [("id", Json.str "A1"), ("token", Json.str "T1"),
        ("address", Json.str "user@mail.tm")]).index "address"
      = .ok (.str ("user" ++ "@" ++ "mail.tm"))
    ∧ ∃ t, (Json.obj [("id", Json.str "A1"), ("token", Json.str "T1"),
        ("address", Json.str "user@mail.tm")]).index "token" = .ok (.str t) ∧ t ≠ "" := by
  have h := create_account_address_and_token
    ⟨.response 201 (some (.obj [("id", .str "A1")])),
     .response 200 (some (.obj [("token", .str "T1")]))⟩
    "user" "pw" "mail.tm" []
    (.obj [("id", Json.str "A1"), ("token", Json.str "T1"),
      ("address", Json.str "user@mail.tm")])
    rfl
  obtain ⟨haddr, v, hv, himp⟩ := h
  have hcon : tokenContract (.response 200 (some (.obj [("token", .str "T1")]))) := by
    intro status j w heq hidx
    injection heq with h1 h2
    injection h2 with h3
    subst h3
    simp [Json.index, lookupKey] at hidx
    exact ⟨"T1", hidx.symm, by decide⟩
  obtain ⟨t, hvt, htne⟩ := himp hcon
  subst hvt
  exact ⟨haddr, t, hv, htne⟩
